import Mathlib

/-!
Shallow embedding of the caching and pagination layer of `src/modules/niwa.py`
(the `Niwa` class).  Timestamps are modelled as integer seconds; JSON values
that can be a number, a string or `null` are modelled by `JVal`; the opaque
tide payload is modelled as a natural number.  Upstream HTTP fetches are
modelled as an `Option` parameter passed to the facade operations
(`none` = fetch error sentinel, `some p` = successful payload `p`).
-/

/-- Constant `cache_length_hours` from `Niwa.__init__`. -/
def cache_length_hours : Int := 8

/-- Constant `cache_max_records` from `Niwa.__init__`. -/
def cache_max_records : Nat := 150

/-- Constant `uv_records_per_response` from `Niwa.__init__` (UV page size). -/
def uv_records_per_response : Nat := 4

/-- The TTL in seconds, `cache_length_hours * 3600`, as used by every
age comparison in the module. -/
def ttlSeconds : Int := cache_length_hours * 3600

/-- A JSON scalar as it reaches `get_uv_risk_string`: Python `None`,
a numeric value (modelled as a rational), or a non-numeric string. -/
inductive JVal where
  | null : JVal
  | num (q : ℚ) : JVal
  | str (s : String) : JVal
deriving DecidableEq

/-- Direct translation of `Niwa.get_uv_risk_string`: `None` gives "No data",
a string that `float()` rejects gives "Invalid data", and a numeric value is
classified by the chained comparisons of the source. -/
def get_uv_risk_string : JVal → String
  | .null => "No data"
  | .str _ => "Invalid data"
  | .num q =>
      if q < 3 then "Low"
      else if 3 ≤ q ∧ q < 6 then "Medium"
      else if 6 ≤ q ∧ q < 8 then "High"
      else if 8 ≤ q ∧ q < 11 then "Very High"
      else "Extreme"

/-- A UV pagination session, one element of `self.uv_sessions`:
`{'deviceID': ..., 'last_access': ..., 'begin': ...}`. -/
structure Session where
  deviceID : Nat
  last_access : Int
  begin : Nat
deriving DecidableEq

/-- A session is removed by the prune when
`(now - last_access).total_seconds() > cache_length_hours * 3600`. -/
def sessionExpired (now : Int) (s : Session) : Bool :=
  now - s.last_access > ttlSeconds

/-- One step of the Python `for session in self.uv_sessions` loop of
`__prune_uv_sessions`.  The loop iterator keeps a position `i`; when the body
removes the current element (`list.remove` deletes the first equal element)
the iterator still moves on, so the element that slid into the freed slot is
never examined.  `i` is the index the iterator reads from next: after
yielding `l[i]` the iterator holds index `i + 1`, and a removal at or before
position `i` shifts the later elements down, so the next read is `i + 1` of
the shrunken list in both branches.  The loop runs at most `l.length - i`
more iterations (each one advances the iterator index), so a structural
`fuel` of at least that many steps makes the recursion exact. -/
def pruneAux (now : Int) : Nat → List Session → Nat → List Session
  | 0, l, _ => l
  | fuel + 1, l, i =>
    if h : i < l.length then
      let s := l.get ⟨i, h⟩
      if sessionExpired now s then
        pruneAux now fuel (l.erase s) (i + 1)
      else
        pruneAux now fuel l (i + 1)
    else l

/-- Translation of `Niwa.__prune_uv_sessions` (including its
remove-while-iterating behaviour). -/
def prune_uv_sessions (now : Int) (sessions : List Session) : List Session :=
  pruneAux now sessions.length sessions 0

/-- Translation of `Niwa.__get_uv_session`: prune, then return the first
session of the owner, else append a fresh one with cursor 0 and
`last_access = now`.  Returns the session together with the new list. -/
def get_uv_session (now : Int) (sessions : List Session) (deviceID : Nat) :
    Session × List Session :=
  let pruned := prune_uv_sessions now sessions
  match pruned.find? (fun s => s.deviceID == deviceID) with
  | some s => (s, pruned)
  | none =>
      let ns : Session := ⟨deviceID, now, 0⟩
      (ns, pruned ++ [ns])

/-- Replace the first session of the owner by the given session. -/
def replaceFirstSession : List Session → Nat → Session → List Session
  | [], _, _ => []
  | s :: rest, d, ns =>
      if s.deviceID == d then ns :: rest
      else s :: replaceFirstSession rest d ns

/-- Translation of `Niwa.__update_uv_session`: it calls `__get_uv_session`
(which prunes and appends a fresh session when none exists) and then mutates
the returned session's `last_access` and `begin` in place.  The mutated
session is an element of the list, so the net effect is: prune, then replace
the owner's first session (appending one first when absent). -/
def update_uv_session (now : Int) (sessions : List Session) (deviceID : Nat)
    (last_access : Int) (beginIdx : Nat) : List Session :=
  let (_, sessions1) := get_uv_session now sessions deviceID
  replaceFirstSession sessions1 deviceID ⟨deviceID, last_access, beginIdx⟩

/-- A record of a UV forecast product: `{'time': ..., 'value': ...}`.
The ISO time string is carried through as the already-rendered display
string; `fromisoformat`/`strftime` are collapsed to the identity. -/
structure UvRecordJ where
  time : String
  value : JVal
deriving DecidableEq

/-- A UV payload as `__format_uv_data` consumes it:
`products[0]` is the cloudy-sky product, `products[1]` the clear-sky one. -/
structure UvData where
  coord : String
  cloudy : List UvRecordJ
  clear : List UvRecordJ
deriving DecidableEq

/-- One element of `self.uv_data_cache`: the tuple
`(uv_data, timestamp, deviceID)`. -/
structure UvEntry where
  payload : UvData
  timestamp : Int
  deviceID : Nat
deriving DecidableEq

/-- One element of `self.tide_data_cache`; the tide payload is opaque to the
cache, so it is modelled as a natural number. -/
structure TideEntry where
  payload : Nat
  timestamp : Int
  deviceID : Nat
deriving DecidableEq

/-- Translation of `Niwa.__check_uv_data_cache`: scan the cache in insertion
order and return the first entry of the owner whose elapsed time is below
the TTL; expired entries of the owner are skipped, not returned. -/
def check_uv_data_cache (cache : List UvEntry) (now : Int) (deviceID : Nat) :
    Option UvData :=
  match cache with
  | [] => none
  | e :: rest =>
      if e.deviceID == deviceID ∧ now - e.timestamp < ttlSeconds then
        some e.payload
      else check_uv_data_cache rest now deviceID

/-- Translation of `Niwa.__cache_uv_data`: append the new tuple, keep only
the last `cache_max_records` entries when over the limit, then drop every
entry whose age reaches the TTL. -/
def cache_uv_data (cache : List UvEntry) (uv_data : UvData) (now : Int)
    (deviceID : Nat) : List UvEntry :=
  let c1 := cache ++ [⟨uv_data, now, deviceID⟩]
  let c2 := if c1.length > cache_max_records
            then c1.drop (c1.length - cache_max_records) else c1
  c2.filter (fun e => now - e.timestamp < ttlSeconds)

/-- Translation of `Niwa.__check_tide_data_cache` (same code shape as the UV
variant). -/
def check_tide_data_cache (cache : List TideEntry) (now : Int)
    (deviceID : Nat) : Option Nat :=
  match cache with
  | [] => none
  | e :: rest =>
      if e.deviceID == deviceID ∧ now - e.timestamp < ttlSeconds then
        some e.payload
      else check_tide_data_cache rest now deviceID

/-- Translation of `Niwa.__cache_tide_data` (same code shape as the UV
variant). -/
def cache_tide_data (cache : List TideEntry) (tide_data : Nat) (now : Int)
    (deviceID : Nat) : List TideEntry :=
  let c1 := cache ++ [⟨tide_data, now, deviceID⟩]
  let c2 := if c1.length > cache_max_records
            then c1.drop (c1.length - cache_max_records) else c1
  c2.filter (fun e => now - e.timestamp < ttlSeconds)

/-- Rendering of a numeric value by Python's `'{0:3.1f}'.format(...)`:
one decimal place, padded on the left to width 3.  The scaled tenths digit
is `⌊q * 10 + 1/2⌋`, computed on the numerator and denominator directly
(so the definition evaluates inside the kernel); ties are rounded upward
here, and no property below depends on tie digits.  A non-numeric value
makes the format call raise (`ValueError`/`TypeError`), modelled as
`Except.error ()`. -/
def fmtFixed1 : JVal → Except Unit String
  | .num q =>
      let n : Int := Int.ediv (20 * q.num + (q.den : Int)) (2 * (q.den : Int))
      let m : Nat := n.natAbs
      let core := toString (m / 10) ++ "." ++ toString (m % 10)
      let signed := if n < 0 then "-" ++ core else core
      let pad := String.mk (List.replicate (3 - signed.length) ' ')
      Except.ok (pad ++ signed)
  | .null => Except.error ()
  | .str _ => Except.error ()

/-- Python `str()` of a JSON scalar as interpolated into the output text. -/
def jvalStr : JVal → String
  | .null => "None"
  | .num q =>
      let n : Int := q.num
      if q.den == 1 then toString n ++ ".0" else toString q
  | .str s => s

/-- One row of the `uv_dict` list built by `__format_uv_data`. -/
structure UvItem where
  time : String
  clear_sky_value : String
  clear_sky_risk : String
  cloudy_sky_value : JVal
  cloudy_sky_risk : String
deriving DecidableEq

/-- Python list indexing `l[i]`: `IndexError` (modelled as `Except.error ()`)
when out of range. -/
def idxE {α : Type} (l : List α) (i : Nat) : Except Unit α :=
  match l.get? i with
  | some x => Except.ok x
  | none => Except.error ()

/-- The `for value in uvdata['products'][1]['values']` loop of
`__format_uv_data`: each clear-sky value goes through the numeric format
(which raises on a non-numeric value, aborting the whole pass). -/
def mapClearValues : List UvRecordJ → Except Unit (List String)
  | [] => Except.ok []
  | v :: rest =>
      match fmtFixed1 v.value with
      | Except.error e => Except.error e
      | Except.ok s =>
          match mapClearValues rest with
          | Except.error e => Except.error e
          | Except.ok r => Except.ok (s :: r)

/-- The `for i in range(len(times))` loop of `__format_uv_data` that zips the
five column lists into `uv_dict`; indexing a shorter column list raises. -/
def build_uv_dict (times clearVals clearRisk : List String)
    (cloudyVals : List JVal) (cloudyRisk : List String) :
    (i : Nat) → Except Unit (List UvItem)
  | 0 => Except.ok []
  | i + 1 =>
      match build_uv_dict times clearVals clearRisk cloudyVals cloudyRisk i with
      | Except.error e => Except.error e
      | Except.ok prev =>
          match idxE times i, idxE clearVals i, idxE clearRisk i,
              idxE cloudyVals i, idxE cloudyRisk i with
          | Except.ok t, Except.ok cv, Except.ok cr, Except.ok dv,
              Except.ok dr =>
              Except.ok (prev ++ [⟨t, cv, cr, dv, dr⟩])
          | _, _, _, _, _ => Except.error ()

/-- The text block rendered for the records of the selected window. -/
def renderItems : List UvItem → String
  | [] => ""
  | item :: rest =>
      item.time ++ "\n"
        ++ "Clear Sky: " ++ item.clear_sky_value ++ " (" ++ item.clear_sky_risk ++ ")\n"
        ++ "Cloudy Sky: " ++ jvalStr item.cloudy_sky_value ++ " (" ++ item.cloudy_sky_risk ++ ")\n\n"
        ++ renderItems rest

/-- The header line of the UV output. -/
def uvHeader (uvdata : UvData) : String :=
  "\nNIWA UV Forecast Data for location (" ++ uvdata.coord ++ "):\n"

/-- The continuation prompt appended when the window did not exhaust the data. -/
def showMoreMsg : String := "Show More?  Send \"nzuv\" to continue."

/-- The completion message appended when the window exhausted the data. -/
def forecastCompleteMsg : String := "Forecast complete."

/-- The `uv_dict` list computed by `__format_uv_data` for a payload:
times and cloudy columns from `products[0]`, clear-sky value/risk columns
from `products[1]`, zipped over `range(len(times))`. -/
def uv_dict (uvdata : UvData) : Except Unit (List UvItem) :=
  match mapClearValues uvdata.clear with
  | Except.error e => Except.error e
  | Except.ok clearVals =>
      build_uv_dict (uvdata.cloudy.map (fun v => v.time)) clearVals
        (uvdata.clear.map (fun v => get_uv_risk_string v.value))
        (uvdata.cloudy.map (fun v => v.value))
        (uvdata.cloudy.map (fun v => get_uv_risk_string v.value))
        (uvdata.cloudy.map (fun v => v.time)).length

/-- Translation of `Niwa.__format_uv_data`.  An uncaught Python exception
(non-numeric clear-sky value inside `'{0:3.1f}'.format`, or a column list
too short) is `Except.error ()`; note it occurs before the session update,
so the error path leaves the session list untouched.  On success the result
is the output text together with the updated session list. -/
def format_uv_data (uvdata : UvData) (deviceID : Nat) (beginIdx : Nat)
    (sessions : List Session) (now : Int) :
    Except Unit (String × List Session) :=
  match uv_dict uvdata with
  | Except.error e => Except.error e
  | Except.ok dict =>
      if beginIdx + uv_records_per_response > dict.length then
        Except.ok
          (uvHeader uvdata ++ renderItems ((dict.take dict.length).drop beginIdx)
             ++ forecastCompleteMsg,
           update_uv_session now sessions deviceID now 0)
      else
        Except.ok
          (uvHeader uvdata ++
             renderItems ((dict.take (beginIdx + uv_records_per_response)).drop
               beginIdx) ++ showMoreMsg,
           update_uv_session now sessions deviceID now
             (beginIdx + uv_records_per_response))

/-- The mutable state of a `Niwa` instance: the two caches and the session
list. -/
structure NiwaState where
  uv_data_cache : List UvEntry
  tide_data_cache : List TideEntry
  uv_sessions : List Session
deriving DecidableEq

/-- Translation of `Niwa.__query_tide_data`.  The HTTP exchange is modelled
by the `fetch` parameter (`none` = any raised exception, `some p` = parsed
2xx body).  On success the source caches the response here (line 116) before
returning it; on failure it returns the error sentinel, modelled as `none`. -/
def query_tide_data (cache : List TideEntry) (deviceID : Nat)
    (fetch : Option Nat) (now : Int) : Option Nat × List TideEntry :=
  match fetch with
  | none => (none, cache)
  | some p => (some p, cache_tide_data cache p now deviceID)

/-- Translation of `Niwa.__retrieve_tide_data`: cache hit short-circuits;
on a miss the query runs and, when it did not return the sentinel, the
result is cached (again — the query already cached it once). -/
def retrieve_tide_data (cache : List TideEntry) (deviceID : Nat)
    (fetch : Option Nat) (now : Int) : Option Nat × List TideEntry :=
  match check_tide_data_cache cache now deviceID with
  | some cached => (some cached, cache)
  | none =>
      match query_tide_data cache deviceID fetch now with
      | (none, c1) => (none, c1)
      | (some p, c1) => (some p, cache_tide_data c1 p now deviceID)

/-- Rendering of `Niwa.__format_tide_data`; the tide payload is opaque in
this embedding, so the rendered text is an uninterpreted function of it. -/
def format_tide_data (tidedata : Nat) : String :=
  "\nNIWA Tide Data " ++ toString tidedata

/-- Translation of `Niwa.get_tide_data`: `none` models the
`ERROR_FETCHING_DATA` sentinel return. -/
def get_tide_data (st : NiwaState) (deviceID : Nat) (fetch : Option Nat)
    (now : Int) : Option String × NiwaState :=
  match retrieve_tide_data st.tide_data_cache deviceID fetch now with
  | (none, c) => (none, { st with tide_data_cache := c })
  | (some p, c) => (some (format_tide_data p), { st with tide_data_cache := c })

/-- Translation of `Niwa.__query_uv_data`: unlike the tide variant it does
not cache inside the query. -/
def query_uv_data (fetch : Option UvData) : Option UvData :=
  fetch

/-- Translation of `Niwa.__retrieve_uv_data`: cache hit short-circuits; on a
miss the query runs and a non-sentinel result is cached (once). -/
def retrieve_uv_data (cache : List UvEntry) (deviceID : Nat)
    (fetch : Option UvData) (now : Int) : Option UvData × List UvEntry :=
  match check_uv_data_cache cache now deviceID with
  | some cached => (some cached, cache)
  | none =>
      match query_uv_data fetch with
      | none => (none, cache)
      | some p => (some p, cache_uv_data cache p now deviceID)

/-- Translation of `Niwa.get_uv_data`.  The outer `Except` is an uncaught
exception escaping `__format_uv_data`; the inner `none` is the
`ERROR_FETCHING_DATA` sentinel.  The session is resolved (pruning, creating
a fresh one when absent) before the fetch, so the error path still carries
that session-list mutation. -/
def get_uv_data (st : NiwaState) (deviceID : Nat) (fetch : Option UvData)
    (now : Int) : Except Unit (Option String) × NiwaState :=
  let (session, sessions1) := get_uv_session now st.uv_sessions deviceID
  let st1 := { st with uv_sessions := sessions1 }
  match retrieve_uv_data st1.uv_data_cache deviceID fetch now with
  | (none, c) => (Except.ok none, { st1 with uv_data_cache := c })
  | (some data, c) =>
      let st2 := { st1 with uv_data_cache := c }
      match format_uv_data data deviceID session.begin st2.uv_sessions now with
      | Except.error e => (Except.error e, st2)
      | Except.ok (out, sessions2) =>
          (Except.ok (some out), { st2 with uv_sessions := sessions2 })


/-- Whether an `Except` result is a success; used to state witness facts
about fallible operations. -/
def exceptOk {ε α : Type} : Except ε α → Bool
  | Except.ok _ => true
  | Except.error _ => false

/-- A 10-record UV payload (identical clear and cloudy products, all values
5) used to exercise the pagination chain. -/
def uv10 : UvData :=
  ⟨"c", (List.range 10).map (fun i => ⟨"T" ++ toString i, JVal.num 5⟩),
        (List.range 10).map (fun i => ⟨"T" ++ toString i, JVal.num 5⟩)⟩

/-- The record table `__format_uv_data` builds for `uv10`. -/
def dict10 : List UvItem :=
  (List.range 10).map
    (fun i => ⟨"T" ++ toString i, "5.0", "Medium", JVal.num 5, "Medium"⟩)

/-- An 8-record UV payload — a record count that is an exact multiple of
the page size. -/
def uv8 : UvData :=
  ⟨"c", (List.range 8).map (fun i => ⟨"T" ++ toString i, JVal.num 5⟩),
        (List.range 8).map (fun i => ⟨"T" ++ toString i, JVal.num 5⟩)⟩

/-- The record table `__format_uv_data` builds for `uv8`. -/
def dict8 : List UvItem :=
  (List.range 8).map
    (fun i => ⟨"T" ++ toString i, "5.0", "Medium", JVal.num 5, "Medium"⟩)

/-- C4: `get_uv_risk_string` maps values below 3 to "Low", `[3,6)` to
"Medium", `[6,8)` to "High", `[8,11)` to "Very High", values of 11 or more
to "Extreme", an absent (`None`) input to "No data" and a non-numeric input
to "Invalid data"; the boundary values 3, 6, 8 and 11 fall into the upper
category. -/
theorem C4_risk_categorization :
    (∀ q : ℚ, q < 3 → get_uv_risk_string (JVal.num q) = "Low") ∧
    (∀ q : ℚ, 3 ≤ q → q < 6 → get_uv_risk_string (JVal.num q) = "Medium") ∧
    (∀ q : ℚ, 6 ≤ q → q < 8 → get_uv_risk_string (JVal.num q) = "High") ∧
    (∀ q : ℚ, 8 ≤ q → q < 11 → get_uv_risk_string (JVal.num q) = "Very High") ∧
    (∀ q : ℚ, 11 ≤ q → get_uv_risk_string (JVal.num q) = "Extreme") ∧
    get_uv_risk_string JVal.null = "No data" ∧
    (∀ s : String, get_uv_risk_string (JVal.str s) = "Invalid data") ∧
    get_uv_risk_string (JVal.num (29/10)) = "Low" ∧
    get_uv_risk_string (JVal.num 3) = "Medium" ∧
    get_uv_risk_string (JVal.num (59/10)) = "Medium" ∧
    get_uv_risk_string (JVal.num 6) = "High" ∧
    get_uv_risk_string (JVal.num (79/10)) = "High" ∧
    get_uv_risk_string (JVal.num 8) = "Very High" ∧
    get_uv_risk_string (JVal.num (109/10)) = "Very High" ∧
    get_uv_risk_string (JVal.num 11) = "Extreme" := by
  refine ⟨?_, ?_, ?_, ?_, ?_, rfl, fun s => rfl, ?_, ?_, ?_, ?_, ?_, ?_, ?_, ?_⟩
  · intro q h
    simp only [get_uv_risk_string, if_pos h]
  · intro q h1 h2
    have h3 : ¬ q < 3 := by linarith
    simp only [get_uv_risk_string, if_neg h3, if_pos (And.intro h1 h2)]
  · intro q h1 h2
    have h3 : ¬ q < 3 := by linarith
    have h4 : ¬ (3 ≤ q ∧ q < 6) := by rintro ⟨-, h⟩; linarith
    simp only [get_uv_risk_string, if_neg h3, if_neg h4,
      if_pos (And.intro h1 h2)]
  · intro q h1 h2
    have h3 : ¬ q < 3 := by linarith
    have h4 : ¬ (3 ≤ q ∧ q < 6) := by rintro ⟨-, h⟩; linarith
    have h5 : ¬ (6 ≤ q ∧ q < 8) := by rintro ⟨-, h⟩; linarith
    simp only [get_uv_risk_string, if_neg h3, if_neg h4, if_neg h5,
      if_pos (And.intro h1 h2)]
  · intro q h1
    have h3 : ¬ q < 3 := by linarith
    have h4 : ¬ (3 ≤ q ∧ q < 6) := by rintro ⟨-, h⟩; linarith
    have h5 : ¬ (6 ≤ q ∧ q < 8) := by rintro ⟨-, h⟩; linarith
    have h6 : ¬ (8 ≤ q ∧ q < 11) := by rintro ⟨-, h⟩; linarith
    simp only [get_uv_risk_string, if_neg h3, if_neg h4, if_neg h5, if_neg h6]
  all_goals norm_num [get_uv_risk_string]

/-- Witness for C4 at concrete inputs. -/
theorem C4_witness :
    get_uv_risk_string (JVal.num (5/2)) = "Low" ∧
    get_uv_risk_string (JVal.num (23/2)) = "Extreme" :=
  ⟨C4_risk_categorization.1 (5/2) (by norm_num),
   C4_risk_categorization.2.2.2.2.1 (23/2) (by norm_num)⟩

/-- C7: after any `Store` call on either cache (over any prior cache state),
the cache holds at most `cache_max_records` (150) entries — the trim keeps
the newest suffix, dropping oldest-first — and every surviving entry is
strictly younger than the TTL. -/
theorem C7_store_bounds :
    (∀ (cache : List UvEntry) (p : UvData) (now : Int) (d : Nat),
        (cache_uv_data cache p now d).length ≤ cache_max_records ∧
        (cache_uv_data cache p now d).all
          (fun e => decide (now - e.timestamp < ttlSeconds)) = true) ∧
    (∀ (cache : List TideEntry) (p : Nat) (now : Int) (d : Nat),
        (cache_tide_data cache p now d).length ≤ cache_max_records ∧
        (cache_tide_data cache p now d).all
          (fun e => decide (now - e.timestamp < ttlSeconds)) = true) := by
  constructor
  · intro cache p now d
    constructor
    · refine le_trans (List.length_filter_le _ _) ?_
      dsimp only [cache_uv_data]
      split
      · rw [List.length_drop]
        omega
      · next h => omega
    · rw [List.all_eq_true]
      intro e he
      exact (List.mem_filter.mp he).2
  · intro cache p now d
    constructor
    · refine le_trans (List.length_filter_le _ _) ?_
      dsimp only [cache_tide_data]
      split
      · rw [List.length_drop]
        omega
      · next h => omega
    · rw [List.all_eq_true]
      intro e he
      exact (List.mem_filter.mp he).2

/-- Scanning a cache whose prefix holds no live entry of the owner skips
that prefix. -/
lemma check_uv_data_cache_append (l1 l2 : List UvEntry) (now : Int) (d : Nat)
    (h : ∀ e ∈ l1, ¬(e.deviceID = d ∧ now - e.timestamp < ttlSeconds)) :
    check_uv_data_cache (l1 ++ l2) now d = check_uv_data_cache l2 now d := by
  induction l1 with
  | nil => rfl
  | cons e rest ih =>
      have he : ¬((e.deviceID == d) = true ∧ now - e.timestamp < ttlSeconds) := by
        rintro ⟨h1, h2⟩
        exact h e (List.mem_cons_self _ _) ⟨by simpa using h1, h2⟩
      rw [List.cons_append]
      simp only [check_uv_data_cache]
      rw [if_neg he]
      exact ih (fun x hx => h x (List.mem_cons_of_mem _ hx))

/-- The list produced by `__cache_uv_data` is the appended entry preceded by
a prefix of still-live old entries, every one of which comes from the old
cache. -/
lemma cache_uv_data_eq (cache : List UvEntry) (p : UvData) (now : Int)
    (d : Nat) :
    ∃ pre : List UvEntry,
      cache_uv_data cache p now d =
        pre.filter (fun e => now - e.timestamp < ttlSeconds) ++ [⟨p, now, d⟩] ∧
      ∀ e ∈ pre, e ∈ cache := by
  have hlive : (fun (e : UvEntry) => decide (now - e.timestamp < ttlSeconds))
      (⟨p, now, d⟩ : UvEntry) = true := by
    simp [ttlSeconds, cache_length_hours]
  by_cases hlen :
      (cache ++ [(⟨p, now, d⟩ : UvEntry)]).length > cache_max_records
  · have hk : (cache ++ [(⟨p, now, d⟩ : UvEntry)]).length - cache_max_records ≤
        cache.length := by
      simp only [List.length_append, List.length_cons, List.length_nil]
      have : 0 < cache_max_records := by norm_num [cache_max_records]
      omega
    refine
      ⟨cache.drop ((cache ++ [(⟨p, now, d⟩ : UvEntry)]).length -
          cache_max_records),
        ?_, fun e he => List.drop_subset _ _ he⟩
    simp only [cache_uv_data]
    rw [if_pos hlen, List.drop_append_of_le_length hk, List.filter_append]
    simp only [List.filter_cons, hlive, List.filter_nil, if_true]
  · refine ⟨cache, ?_, fun e he => he⟩
    simp only [cache_uv_data]
    rw [if_neg hlen, List.filter_append]
    simp only [List.filter_cons, hlive, List.filter_nil, if_true]

/-- C1 (amended): `Lookup` scans entries in insertion order and returns the
first — hence oldest — still-live match for the owner; consequently
`Lookup(ownerID)` within the TTL window after `Store(payload, ownerID)`
returns that payload provided every entry the cache already held for this
owner had aged to the TTL or beyond at store time (in particular on a cache
holding nothing for this owner). -/
theorem C1_store_then_lookup (cache : List UvEntry) (p : UvData)
    (now t : Int) (d : Nat)
    (hold : ∀ e ∈ cache, e.deviceID = d → ttlSeconds ≤ now - e.timestamp)
    (h2 : t - now < ttlSeconds) :
    check_uv_data_cache (cache_uv_data cache p now d) t d = some p := by
  obtain ⟨pre, heq, hpre⟩ := cache_uv_data_eq cache p now d
  rw [heq]
  rw [check_uv_data_cache_append]
  · simp only [check_uv_data_cache]
    rw [if_pos ⟨by simp, by omega⟩]
  · intro e he
    rintro ⟨hd, -⟩
    have hmem := List.mem_filter.mp he
    have hlive : now - e.timestamp < ttlSeconds := by
      simpa using hmem.2
    have := hold e (hpre e hmem.1) hd
    omega

/-- Witness for C1 on an initially empty cache. -/
theorem C1_witness :
    check_uv_data_cache (cache_uv_data [] ⟨"A", [], []⟩ 0 5) 0 5 =
      some ⟨"A", [], []⟩ :=
  C1_store_then_lookup [] ⟨"A", [], []⟩ 0 0 5
    (fun e he => absurd he (List.not_mem_nil e))
    (by norm_num [ttlSeconds, cache_length_hours])

/-- C1 counterexample: with two live entries for the same owner, `Lookup`
right after `Store` returns the older payload, not the freshest (stored)
one, refuting both the freshest-match reading and the unconditional
store-then-lookup round trip. -/
theorem C1_counterexample :
    check_uv_data_cache
        (cache_uv_data [⟨⟨"A", [], []⟩, 0, 7⟩] ⟨"B", [], []⟩ 0 7) 0 7 =
      some ⟨"A", [], []⟩ ∧
    (⟨"A", [], []⟩ : UvData) ≠ ⟨"B", [], []⟩ := by decide

/-- C5: with two adjacent expired sessions (both idle longer than the TTL at
`now = 28801`), the prune removes the first but — because the list is
mutated while being iterated — skips the second, and the subsequent lookup
for the second owner returns the stale session with its old cursor instead
of removing it and creating a fresh cursor-0 one. -/
theorem C5_prune_skips_adjacent_expired :
    sessionExpired 28801 ⟨1, 0, 0⟩ = true ∧
    sessionExpired 28801 ⟨2, 0, 3⟩ = true ∧
    prune_uv_sessions 28801 [⟨1, 0, 0⟩, ⟨2, 0, 3⟩] = [⟨2, 0, 3⟩] ∧
    get_uv_session 28801 [⟨1, 0, 0⟩, ⟨2, 0, 3⟩] 2 =
      (⟨2, 0, 3⟩, [⟨2, 0, 3⟩]) ∧
    (⟨2, 0, 3⟩ : Session) ≠ ⟨2, 28801, 0⟩ := by decide

/-- C6: a single successful tide fetch on a cache miss stores the response
twice — once inside `__query_tide_data` and once more in
`__retrieve_tide_data` — so the tide cache ends up with two live entries for
the requesting device, not at most one. -/
theorem C6_tide_fetch_caches_twice :
    (retrieve_tide_data [] 5 (some 42) 0).2 =
      [⟨42, 0, 5⟩, ⟨42, 0, 5⟩] ∧
    (get_tide_data ⟨[], [], []⟩ 5 (some 42) 0).2.tide_data_cache.countP
      (fun e => e.deviceID == 5 && decide (0 - e.timestamp < ttlSeconds)) =
      2 := by decide

/-- C10: when the cache misses and the upstream UV fetch fails, `get_uv_data`
returns the fetch-error sentinel and leaves both caches untouched, but the
session list has already been pruned and, when the device had no surviving
session, a fresh cursor-0 session has been created and retained; a surviving
session is returned as-is (cursor and `last_access` unchanged). -/
theorem C10_uv_fetch_error_path (st : NiwaState) (d : Nat) (now : Int)
    (hmiss : check_uv_data_cache st.uv_data_cache now d = none) :
    (get_uv_data st d none now).1 = Except.ok none ∧
    (get_uv_data st d none now).2.uv_data_cache = st.uv_data_cache ∧
    (get_uv_data st d none now).2.tide_data_cache = st.tide_data_cache ∧
    (get_uv_data st d none now).2.uv_sessions =
      (match (prune_uv_sessions now st.uv_sessions).find?
          (fun s => s.deviceID == d) with
       | some _ => prune_uv_sessions now st.uv_sessions
       | none => prune_uv_sessions now st.uv_sessions ++ [⟨d, now, 0⟩]) := by
  unfold get_uv_data retrieve_uv_data query_uv_data get_uv_session
  cases hf : (prune_uv_sessions now st.uv_sessions).find?
      (fun s => s.deviceID == d) with
  | some s => simp [hf, hmiss]
  | none => simp [hf, hmiss]

/-- Witness for C10 on the empty state. -/
theorem C10_witness :
    (get_uv_data ⟨[], [], []⟩ 3 none 0).1 = Except.ok none ∧
    (get_uv_data ⟨[], [], []⟩ 3 none 0).2.uv_sessions = [⟨3, 0, 0⟩] := by
  have h := C10_uv_fetch_error_path ⟨[], [], []⟩ 3 0 rfl
  exact ⟨h.1, by rw [h.2.2.2]; decide⟩

/-- Indexing within bounds succeeds. -/
lemma idxE_ok {α : Type} (l : List α) (i : Nat) (h : i < l.length) :
    idxE l i = Except.ok (l.get ⟨i, h⟩) := by
  simp [idxE, List.getElem?_eq_getElem h]

/-- Formatting the clear-sky column succeeds on all-numeric values and keeps
the length. -/
lemma mapClearValues_ok (l : List UvRecordJ)
    (h : ∀ v ∈ l, ∃ q, v.value = JVal.num q) :
    ∃ out, mapClearValues l = Except.ok out ∧ out.length = l.length := by
  induction l with
  | nil => exact ⟨[], rfl, rfl⟩
  | cons v rest ih =>
      obtain ⟨q, hq⟩ := h v (List.mem_cons_self _ _)
      obtain ⟨out, hout, hlength⟩ :=
        ih (fun x hx => h x (List.mem_cons_of_mem _ hx))
      cases hf : fmtFixed1 v.value with
      | error e => rw [hq] at hf; simp [fmtFixed1] at hf
      | ok s =>
          exact ⟨s :: out, by simp [mapClearValues, hf, hout],
            by simp [hlength]⟩

/-- Zipping the five column lists succeeds when the index range is within
every column, and produces one row per index. -/
lemma build_uv_dict_ok (times clearVals clearRisk : List String)
    (cloudyVals : List JVal) (cloudyRisk : List String) (n : Nat)
    (h1 : n ≤ times.length) (h2 : n ≤ clearVals.length)
    (h3 : n ≤ clearRisk.length) (h4 : n ≤ cloudyVals.length)
    (h5 : n ≤ cloudyRisk.length) :
    ∃ dict, build_uv_dict times clearVals clearRisk cloudyVals cloudyRisk n =
        Except.ok dict ∧ dict.length = n := by
  induction n with
  | zero => exact ⟨[], rfl, rfl⟩
  | succ i ih =>
      obtain ⟨prev, hprev, hlen⟩ :=
        ih (Nat.le_of_succ_le h1) (Nat.le_of_succ_le h2)
           (Nat.le_of_succ_le h3) (Nat.le_of_succ_le h4)
           (Nat.le_of_succ_le h5)
      refine ⟨prev ++ [⟨times.get ⟨i, h1⟩, clearVals.get ⟨i, h2⟩,
        clearRisk.get ⟨i, h3⟩, cloudyVals.get ⟨i, h4⟩,
        cloudyRisk.get ⟨i, h5⟩⟩], ?_, by simp [hlen]⟩
      simp [build_uv_dict, hprev, idxE_ok times i h1, idxE_ok clearVals i h2,
        idxE_ok clearRisk i h3, idxE_ok cloudyVals i h4,
        idxE_ok cloudyRisk i h5]

/-- Behaviour of one formatting pass on a well-formed payload (clear-sky
product at least as long as the cloudy one, all clear-sky values numeric):
the pass succeeds, the record table has one row per cloudy record, and the
output window, closing message and session update follow the
`end = begin + 4` / clamp-and-reset rule of the source. -/
lemma format_uv_data_spec (uvdata : UvData) (d beginIdx : Nat)
    (sessions : List Session) (now : Int)
    (hlen : uvdata.cloudy.length ≤ uvdata.clear.length)
    (hnum : ∀ v ∈ uvdata.clear, ∃ q, v.value = JVal.num q) :
    ∃ dict, uv_dict uvdata = Except.ok dict ∧
      dict.length = uvdata.cloudy.length ∧
      format_uv_data uvdata d beginIdx sessions now =
        Except.ok
          (uvHeader uvdata ++
             renderItems ((dict.take
               (if beginIdx + uv_records_per_response > dict.length
                then dict.length
                else beginIdx + uv_records_per_response)).drop beginIdx) ++
             (if beginIdx + uv_records_per_response > dict.length
              then forecastCompleteMsg else showMoreMsg),
           update_uv_session now sessions d now
             (if beginIdx + uv_records_per_response > dict.length
              then 0 else beginIdx + uv_records_per_response)) := by
  obtain ⟨cv, hcv, hcvlen⟩ := mapClearValues_ok uvdata.clear hnum
  obtain ⟨dict, hdict, hdictlen⟩ :=
    build_uv_dict_ok (uvdata.cloudy.map (fun v => v.time)) cv
      (uvdata.clear.map (fun v => get_uv_risk_string v.value))
      (uvdata.cloudy.map (fun v => v.value))
      (uvdata.cloudy.map (fun v => get_uv_risk_string v.value))
      (uvdata.cloudy.map (fun v => v.time)).length
      le_rfl (by simpa [hcvlen] using hlen) (by simpa using hlen)
      (by simp) (by simp)
  have huv : uv_dict uvdata = Except.ok dict := by
    simp only [uv_dict, hcv]
    exact hdict
  refine ⟨dict, huv, by simpa using hdictlen, ?_⟩
  simp only [format_uv_data, huv]
  by_cases hcond : beginIdx + uv_records_per_response > dict.length
  · rw [if_pos hcond, if_pos hcond, if_pos hcond, if_pos hcond]
  · rw [if_neg hcond, if_neg hcond, if_neg hcond, if_neg hcond]

/-- C2: a UV formatting pass computes `end = begin + 4`; when `end` exceeds
the record count it clamps `end` to the count, resets the owner's cursor to
0 and appends the completion message, otherwise it stores cursor `end` and
appends the continuation prompt; with 10 records the successive calls for
one device render windows `[0,4)`, `[4,8)`, `[8,10)` (with completion), then
`[0,4)` again. -/
theorem C2_uv_pagination :
    uv_records_per_response = 4 ∧
    (∀ (uvdata : UvData) (d beginIdx : Nat) (sessions : List Session)
        (now : Int),
        uvdata.cloudy.length ≤ uvdata.clear.length →
        (∀ v ∈ uvdata.clear, ∃ q, v.value = JVal.num q) →
        ∃ dict, uv_dict uvdata = Except.ok dict ∧
          dict.length = uvdata.cloudy.length ∧
          format_uv_data uvdata d beginIdx sessions now =
            Except.ok
              (uvHeader uvdata ++
                 renderItems ((dict.take
                   (if beginIdx + uv_records_per_response > dict.length
                    then dict.length
                    else beginIdx + uv_records_per_response)).drop beginIdx) ++
                 (if beginIdx + uv_records_per_response > dict.length
                  then forecastCompleteMsg else showMoreMsg),
               update_uv_session now sessions d now
                 (if beginIdx + uv_records_per_response > dict.length
                  then 0 else beginIdx + uv_records_per_response))) ∧
    uv_dict uv10 = Except.ok dict10 ∧
    dict10.length = 10 ∧
    format_uv_data uv10 9 0 [] 0 =
      Except.ok (uvHeader uv10 ++ renderItems ((dict10.take 4).drop 0) ++
        showMoreMsg, [⟨9, 0, 4⟩]) ∧
    format_uv_data uv10 9 4 [⟨9, 0, 4⟩] 0 =
      Except.ok (uvHeader uv10 ++ renderItems ((dict10.take 8).drop 4) ++
        showMoreMsg, [⟨9, 0, 8⟩]) ∧
    format_uv_data uv10 9 8 [⟨9, 0, 8⟩] 0 =
      Except.ok (uvHeader uv10 ++ renderItems ((dict10.take 10).drop 8) ++
        forecastCompleteMsg, [⟨9, 0, 0⟩]) ∧
    format_uv_data uv10 9 0 [⟨9, 0, 0⟩] 0 =
      Except.ok (uvHeader uv10 ++ renderItems ((dict10.take 4).drop 0) ++
        showMoreMsg, [⟨9, 0, 4⟩]) :=
  ⟨rfl, format_uv_data_spec, by rfl, by rfl, by rfl, by rfl, by rfl, by rfl⟩

/-- Witness for C2 on a one-record payload: the single window is rendered
and the cursor is reset with the completion message. -/
theorem C2_witness :
    format_uv_data ⟨"w", [⟨"t", JVal.num 2⟩], [⟨"t", JVal.num 2⟩]⟩ 1 0 [] 0 =
      Except.ok
        ("\nNIWA UV Forecast Data for location (w):\n" ++
           "t\nClear Sky: 2.0 (Low)\nCloudy Sky: 2.0 (Low)\n\n" ++
           forecastCompleteMsg,
         [⟨1, 0, 0⟩]) := by
  obtain ⟨dict, hdict, -, hfmt⟩ :=
    C2_uv_pagination.2.1 ⟨"w", [⟨"t", JVal.num 2⟩], [⟨"t", JVal.num 2⟩]⟩ 1 0
      [] 0 (by decide)
      (fun v hv => by
        rw [List.mem_singleton] at hv
        exact ⟨2, by rw [hv]⟩)
  have h2 : uv_dict ⟨"w", [⟨"t", JVal.num 2⟩], [⟨"t", JVal.num 2⟩]⟩ =
      Except.ok [⟨"t", "2.0", "Low", JVal.num 2, "Low"⟩] := by rfl
  rw [h2] at hdict
  injection hdict with hd
  subst hd
  exact hfmt.trans (by rfl)

/-- C3 counterexample: on an 8-record forecast the pass that consumes the
last full window `[4,8)` stores cursor 8 — equal to the record count, hence
neither a valid start index into the record list nor 0 — and appends the
continuation prompt, not the completion message.  The cursor does not wrap
on reaching the record count, and the claimed invariant fails. -/
theorem C3_counterexample :
    format_uv_data uv8 2 4 [⟨2, 0, 4⟩] 0 =
      Except.ok (uvHeader uv8 ++ renderItems ((dict8.take 8).drop 4) ++
        showMoreMsg, [⟨2, 0, 8⟩]) ∧
    dict8.length = 8 ∧
    ¬(8 < dict8.length ∨ (8 : Nat) = 0) :=
  ⟨by rfl, by rfl, by decide⟩

/-- C3 (amended): the Formatter advances the cursor by exactly 4 per pass
while `begin + 4 ≤ recordCount` — so the cursor can come to rest at exactly
the record count, an exhausted value that is not a valid start index — and
resets it to 0 only on the pass where `begin + 4` strictly exceeds the
count; the stored cursor never exceeds the record count when the pass
started within it, and for a count that is an exact multiple of 4 the pass
consuming the last full window stores cursor = count with the continuation
prompt, the completion message only coming from the following, empty,
pass. -/
theorem C3_cursor_amended :
    ∀ (uvdata : UvData) (d beginIdx : Nat) (sessions : List Session)
      (now : Int),
      uvdata.cloudy.length ≤ uvdata.clear.length →
      (∀ v ∈ uvdata.clear, ∃ q, v.value = JVal.num q) →
      ∃ dict, uv_dict uvdata = Except.ok dict ∧
        (format_uv_data uvdata d beginIdx sessions now).map Prod.snd =
          Except.ok (update_uv_session now sessions d now
            (if beginIdx + uv_records_per_response > dict.length then 0
             else beginIdx + uv_records_per_response)) ∧
        (beginIdx ≤ dict.length →
          (if beginIdx + uv_records_per_response > dict.length then 0
           else beginIdx + uv_records_per_response) ≤ dict.length) ∧
        (beginIdx + uv_records_per_response = dict.length →
          format_uv_data uvdata d beginIdx sessions now =
            Except.ok
              (uvHeader uvdata ++
                 renderItems ((dict.take
                   (beginIdx + uv_records_per_response)).drop beginIdx) ++
                 showMoreMsg,
               update_uv_session now sessions d now
                 (beginIdx + uv_records_per_response))) := by
  intro uvdata d beginIdx sessions now hlen hnum
  obtain ⟨dict, huv, hdictlen, hfmt⟩ :=
    format_uv_data_spec uvdata d beginIdx sessions now hlen hnum
  refine ⟨dict, huv, ?_, ?_, ?_⟩
  · rw [hfmt]
    rfl
  · intro hb
    split
    · exact Nat.zero_le _
    · next hc => omega
  · intro hexact
    have hc : ¬ beginIdx + uv_records_per_response > dict.length := by omega
    rw [hfmt, if_neg hc, if_neg hc, if_neg hc]

/-- Witness for the amended C3 on a one-record payload: the pass resets the
cursor to 0. -/
theorem C3_witness :
    (format_uv_data ⟨"w", [⟨"u", JVal.num 7⟩], [⟨"u", JVal.num 7⟩]⟩ 4 0 []
        0).map Prod.snd = Except.ok [⟨4, 0, 0⟩] := by
  obtain ⟨dict, hdict, hsnd, -, -⟩ :=
    C3_cursor_amended ⟨"w", [⟨"u", JVal.num 7⟩], [⟨"u", JVal.num 7⟩]⟩ 4 0 [] 0
      (by decide)
      (fun v hv => by
        rw [List.mem_singleton] at hv
        exact ⟨7, by rw [hv]⟩)
  have h2 : uv_dict ⟨"w", [⟨"u", JVal.num 7⟩], [⟨"u", JVal.num 7⟩]⟩ =
      Except.ok [⟨"u", "7.0", "High", JVal.num 7, "High"⟩] := by rfl
  rw [h2] at hdict
  injection hdict with hd
  subst hd
  exact hsnd.trans (by rfl)

/-- C8: for a stale cursor at or past the record count, the formatting pass
still succeeds — no exception, no index underflow — rendering an empty
record slice and immediately reporting completion while resetting the
cursor to 0. -/
theorem C8_stale_cursor_safe :
    ∀ (uvdata : UvData) (d beginIdx : Nat) (sessions : List Session)
      (now : Int),
      uvdata.cloudy.length ≤ uvdata.clear.length →
      (∀ v ∈ uvdata.clear, ∃ q, v.value = JVal.num q) →
      uvdata.cloudy.length ≤ beginIdx →
      ∃ dict, uv_dict uvdata = Except.ok dict ∧
        (dict.take dict.length).drop beginIdx = [] ∧
        format_uv_data uvdata d beginIdx sessions now =
          Except.ok (uvHeader uvdata ++ renderItems [] ++ forecastCompleteMsg,
            update_uv_session now sessions d now 0) := by
  intro uvdata d beginIdx sessions now hlen hnum hstale
  obtain ⟨dict, huv, hdictlen, hfmt⟩ :=
    format_uv_data_spec uvdata d beginIdx sessions now hlen hnum
  have hble : dict.length ≤ beginIdx := by omega
  have hcond : beginIdx + uv_records_per_response > dict.length := by
    have : 0 < uv_records_per_response := by
      norm_num [uv_records_per_response]
    omega
  have hempty : (dict.take dict.length).drop beginIdx = [] := by
    rw [List.take_length]
    exact List.drop_eq_nil_of_le hble
  refine ⟨dict, huv, hempty, ?_⟩
  rw [hfmt, if_pos hcond, if_pos hcond, if_pos hcond, hempty]

/-- Witness for C8: cursor 6 on a one-record forecast renders nothing and
completes. -/
theorem C8_witness :
    format_uv_data ⟨"w", [⟨"u", JVal.num 9⟩], [⟨"u", JVal.num 9⟩]⟩ 4 6 [] 0 =
      Except.ok
        (uvHeader ⟨"w", [⟨"u", JVal.num 9⟩], [⟨"u", JVal.num 9⟩]⟩ ++
           renderItems [] ++ forecastCompleteMsg,
         update_uv_session 0 [] 4 0 0) := by
  obtain ⟨dict, -, -, hfmt⟩ :=
    C8_stale_cursor_safe ⟨"w", [⟨"u", JVal.num 9⟩], [⟨"u", JVal.num 9⟩]⟩ 4 6
      [] 0 (by decide)
      (fun v hv => by
        rw [List.mem_singleton] at hv
        exact ⟨9, by rw [hv]⟩)
      (by decide)
  exact hfmt

/-- C9 counterexample: a payload whose clear-sky product holds the
non-numeric value "abc" makes the formatting pass raise (the numeric
`'{0:3.1f}'` format fails before any risk string is computed), even though
the risk categorization itself would have handled the value as
"Invalid data": the bad value is surfaced to the caller as an error. -/
theorem C9_counterexample :
    format_uv_data ⟨"c", [⟨"t", JVal.num 1⟩], [⟨"t", JVal.str "abc"⟩]⟩ 3 0 []
        0 =
      Except.error () ∧
    get_uv_risk_string (JVal.str "abc") = "Invalid data" :=
  ⟨by rfl, rfl⟩

/-- C9 (amended): the risk categorization maps every non-numeric value to
"Invalid data" and an absent value to "No data", and a non-numeric
cloudy-sky value is indeed handled locally — the pass succeeds whenever all
clear-sky values are numeric, whatever the cloudy values are, rendering
"Invalid data" as the bad record's risk — but a non-numeric clear-sky value
raises inside the numeric display format before the risk string is reached
and surfaces as an error (see the counterexample). -/
theorem C9_invalid_data_amended :
    (∀ s, get_uv_risk_string (JVal.str s) = "Invalid data") ∧
    get_uv_risk_string JVal.null = "No data" ∧
    (∀ (uvdata : UvData) (d beginIdx : Nat) (sessions : List Session)
        (now : Int),
        uvdata.cloudy.length ≤ uvdata.clear.length →
        (∀ v ∈ uvdata.clear, ∃ q, v.value = JVal.num q) →
        ∃ r, format_uv_data uvdata d beginIdx sessions now = Except.ok r) ∧
    format_uv_data ⟨"c", [⟨"t", JVal.str "xyz"⟩], [⟨"t", JVal.num 1⟩]⟩ 3 0 []
        0 =
      Except.ok
        ("\nNIWA UV Forecast Data for location (c):\n" ++
           "t\nClear Sky: 1.0 (Low)\nCloudy Sky: xyz (Invalid data)\n\n" ++
           forecastCompleteMsg,
         [⟨3, 0, 0⟩]) := by
  refine ⟨fun s => rfl, rfl, ?_, by rfl⟩
  intro uvdata d beginIdx sessions now hlen hnum
  obtain ⟨dict, huv, hdictlen, hfmt⟩ :=
    format_uv_data_spec uvdata d beginIdx sessions now hlen hnum
  exact ⟨_, hfmt⟩

/-- Witness for the amended C9 on a payload whose only cloudy value is the
non-numeric string "zz": the pass succeeds. -/
theorem C9_witness :
    exceptOk
      (format_uv_data ⟨"w", [⟨"u", JVal.str "zz"⟩], [⟨"u", JVal.num 4⟩]⟩ 2 0
        [] 0) = true := by
  obtain ⟨r, hr⟩ :=
    C9_invalid_data_amended.2.2.1
      ⟨"w", [⟨"u", JVal.str "zz"⟩], [⟨"u", JVal.num 4⟩]⟩ 2 0 [] 0
      (by decide)
      (fun v hv => by
        rw [List.mem_singleton] at hv
        exact ⟨4, by rw [hv]⟩)
  rw [hr]
  rfl
